import Mathlib

/-!
Shallow embedding of the combat core of tien2512/New-AI-RPG
(src/combat_system/combat_system_core_v1.01.py, src/status_system.py,
src/combo_system.py, src/adaptive_enemy_ai.py) together with theorems
settling the frozen claims about it.

Python machine integers are modelled as Lean Int.  Python dictionaries
keyed by enumeration members or by strings are modelled as association
lists or as total functions with the default value the code relies on
(defaultdict int reads as 0 when the key is absent).  Calls into the
random module are modelled by passing the drawn values explicitly in a
RandomDraws record, so every theorem quantifies over the draws.
-/

deriving instance DecidableEq for Except

namespace CombatCore

/-- Domain enumeration from combat_system_core_v1.01.py. -/
inductive Domain where
  | body
  | mind
  | craft
  | awareness
  | social
  | authority
  | spirit
  deriving DecidableEq

/-- Value string of a Domain member, as in the Python enum. -/
def Domain.val : Domain → String
  | .body => "Body"
  | .mind => "Mind"
  | .craft => "Craft"
  | .awareness => "Awareness"
  | .social => "Social"
  | .authority => "Authority"
  | .spirit => "Spirit"

/-- MoveType enumeration from combat_system_core_v1.01.py. -/
inductive MoveType where
  | force
  | trick
  | focus
  | buff
  | debuff
  | utility
  deriving DecidableEq, Fintype

/-- Value string of a MoveType member (Python .value). -/
def MoveType.val : MoveType → String
  | .force => "Force"
  | .trick => "Trick"
  | .focus => "Focus"
  | .buff => "Buff"
  | .debuff => "Debuff"
  | .utility => "Utility"

/-- Member name of a MoveType (Python .name), used for pattern keys. -/
def MoveType.enum_name : MoveType → String
  | .force => "FORCE"
  | .trick => "TRICK"
  | .focus => "FOCUS"
  | .buff => "BUFF"
  | .debuff => "DEBUFF"
  | .utility => "UTILITY"

/-- CombatantType enumeration. -/
inductive CombatantType where
  | player
  | npc
  | enemy
  | ally
  | object
  deriving DecidableEq

/-- Status enumeration. -/
inductive Status where
  | wounded
  | confused
  | stunned
  | frightened
  | inspired
  | poisoned
  | bleeding
  | exhausted
  deriving DecidableEq

/-- Value string of a Status member (Python .value). -/
def Status.val : Status → String
  | .wounded => "Wounded"
  | .confused => "Confused"
  | .stunned => "Stunned"
  | .frightened => "Frightened"
  | .inspired => "Inspired"
  | .poisoned => "Poisoned"
  | .bleeding => "Bleeding"
  | .exhausted => "Exhausted"

/-- StatusTier enumeration from status_system.py. -/
inductive StatusTier where
  | minor
  | moderate
  | severe
  | critical
  deriving DecidableEq

/-- StatusSource enumeration from status_system.py. -/
inductive StatusSource where
  | physical
  | mental
  | spiritual
  | environmental
  | magical
  | social
  deriving DecidableEq

/-- Consequence dataclass.  The affected_stats dict defaults to None in
the source; it is modelled as an optional association list. -/
structure Consequence where
  description : String
  affected_domains : List Domain
  duration : Int
  intensity : Int
  narrative_hook : String
  affected_stats : Option (List (String × Int)) := none
  deriving DecidableEq

/-- CombatMove.  The constructor initialises is_desperate and
is_calculated to False and narrative_hook to None; the unused target
field (whose setter is broken in the source) is omitted. -/
structure CombatMove where
  name : String
  move_type : MoveType
  domains : List Domain
  description : String
  stamina_cost : Int := 0
  focus_cost : Int := 0
  spirit_cost : Int := 0
  is_desperate : Bool := false
  is_calculated : Bool := false
  narrative_hook : Option String := none
  deriving DecidableEq

/-- Builder method as_desperate: sets the flag on the same object. -/
def CombatMove.as_desperate (m : CombatMove) : CombatMove :=
  { m with is_desperate := true }

/-- Builder method as_calculated: sets the flag on the same object. -/
def CombatMove.as_calculated (m : CombatMove) : CombatMove :=
  { m with is_calculated := true }

/-- Builder method with_narrative_hook: sets the hook on the object. -/
def CombatMove.with_narrative_hook (m : CombatMove) (hook : String) : CombatMove :=
  { m with narrative_hook := some hook }

/-- EnhancedStatus dataclass from status_system.py. -/
structure EnhancedStatus where
  name : String
  base_status : Status
  tier : StatusTier
  source : StatusSource
  duration : Int
  description : String
  affected_domains : List Domain
  stat_modifiers : List (String × Int)
  domain_modifiers : List (Domain × Int)
  special_effects : List String
  deriving DecidableEq

/-- Combatant.  The domain_ratings dict is an association list read with
default 0; the statuses set is a duplicate-free list; consequences and
available_moves are carried for completeness; the enhanced_statuses list
(attached lazily via hasattr in the source) is an always-present field
starting empty; the untyped combat_memory list is omitted. -/
structure Combatant where
  name : String
  combatant_type : CombatantType
  domain_ratings : List (Domain × Int)
  max_health : Int := 100
  current_health : Int := 100
  max_stamina : Int := 100
  current_stamina : Int := 100
  max_focus : Int := 100
  current_focus : Int := 100
  max_spirit : Int := 100
  current_spirit : Int := 100
  statuses : List Status := []
  consequences : List Consequence := []
  available_moves : List CombatMove := []
  weak_domains : List Domain := []
  strong_domains : List Domain := []
  enhanced_statuses : List EnhancedStatus := []
  deriving DecidableEq

/-- Lookup in the domain_ratings dict with the default 0 used by
domain_ratings.get(domain, 0). -/
def ratings_get (rs : List (Domain × Int)) (d : Domain) : Int :=
  match rs.find? (fun p => decide (p.1 = d)) with
  | some p => p.2
  | none => 0

/-- Python set.add on the statuses set: append if absent. -/
def add_status (ss : List Status) (s : Status) : List Status :=
  if s ∈ ss then ss else ss ++ [s]

/-- Combatant.get_domain_rating: base rating with status penalties,
floored at 0. -/
def Combatant.get_domain_rating (c : Combatant) (d : Domain) : Int :=
  let base := ratings_get c.domain_ratings d
  let base := if Status.wounded ∈ c.statuses ∧ d = Domain.body then base - 1 else base
  let base := if Status.confused ∈ c.statuses ∧ d = Domain.mind then base - 1 else base
  max 0 base

/-- Combatant.can_use_move: every cost within the current pool. -/
def Combatant.can_use_move (c : Combatant) (m : CombatMove) : Bool :=
  decide (m.stamina_cost ≤ c.current_stamina) &&
  decide (m.focus_cost ≤ c.current_focus) &&
  decide (m.spirit_cost ≤ c.current_spirit)

/-- Combatant.pay_move_costs: subtract the three costs. -/
def Combatant.pay_move_costs (c : Combatant) (m : CombatMove) : Combatant :=
  { c with
    current_stamina := c.current_stamina - m.stamina_cost
    current_focus := c.current_focus - m.focus_cost
    current_spirit := c.current_spirit - m.spirit_cost }

/-- Fields merged into the round result by apply_damage. -/
structure DamageOutcome where
  damage_dealt : Int
  current_health : Int
  wounded : Bool
  deriving DecidableEq

/-- Combatant.apply_damage.  The source compares current_health with
max_health * 0.5; on integers that float comparison is exactly
2 * current_health < max_health.  The unused domains parameter is
dropped. -/
def Combatant.apply_damage (c : Combatant) (amount : Int) : Combatant × DamageOutcome :=
  let nh := max 0 (c.current_health - amount)
  let c1 := { c with current_health := nh }
  if 2 * nh < c1.max_health ∧ ¬ (Status.wounded ∈ c1.statuses) then
    ({ c1 with statuses := add_status c1.statuses Status.wounded },
     { damage_dealt := amount, current_health := nh, wounded := true })
  else
    (c1, { damage_dealt := amount, current_health := nh, wounded := false })

/-- Fields merged into the round result by apply_status. -/
structure StatusOutcome where
  status_applied : String
  duration : Int
  deriving DecidableEq

/-- Combatant.apply_status with its default duration of 3. -/
def Combatant.apply_status (c : Combatant) (s : Status) (duration : Int := 3) :
    Combatant × StatusOutcome :=
  ({ c with statuses := add_status c.statuses s },
   { status_applied := s.val, duration := duration })

/-- Combatant.is_defeated. -/
def Combatant.is_defeated (c : Combatant) : Bool :=
  decide (c.current_health ≤ 0)

/-- The round result dict built by resolve_opposed_moves.  Keys that are
only merged in on some paths (damage fields, status fields, combo
annotation) are optional fields that start absent.  The status_applied
entry stores the status value string, as the source does. -/
structure RoundResult where
  actor : String
  target : String
  actor_move : String
  target_move : String
  actor_roll : Int
  target_roll : Int
  actor_success : Bool
  effect_magnitude : Int
  type_advantage : Int
  actor_momentum : Int
  target_momentum : Int
  narrative_hooks : List String
  damage_dealt : Option Int := none
  current_health : Option Int := none
  wounded : Option Bool := none
  status_applied : Option String := none
  status_duration : Option Int := none
  combo_used : Option String := none
  deriving DecidableEq

/-- CombatSystem state.  The momentum defaultdict is a total function
with default 0, which matches every read the source performs. -/
structure CombatSystem where
  combat_log : List RoundResult := []
  momentum : String → Int := fun _ => 0
  environment_tags : List String := []
  round_counter : Int := 0

/-- Pointwise update of the momentum map. -/
def update_map (m : String → Int) (k : String) (v : Int) : String → Int :=
  fun n => if n = k then v else m n

/-- The two momentum writes at the end of a resolved round: the winner
entry is set to min 3 (old + 1) and then the loser entry is set from the
map that already holds the first write, as the source reads
self.momentum[loser] after the first assignment. -/
def update_momentum (m : String → Int) (winner loser : String) : String → Int :=
  let m1 := update_map m winner (min 3 (m winner + 1))
  update_map m1 loser (max 0 (m1 loser - 1))

/-- Values drawn from the random module during one resolution, passed
explicitly: the two d6 rolls, the desperate adjustments drawn from
[-3, 5], the calculated adjustments drawn from [0, 2], and the coin for
random.choice([Status.STUNNED, Status.FRIGHTENED]). -/
structure RandomDraws where
  actor_d6 : Int
  target_d6 : Int
  actor_desperate_adj : Int := 0
  actor_calculated_adj : Int := 0
  target_desperate_adj : Int := 0
  target_calculated_adj : Int := 0
  debuff_pick_stunned : Bool := true

/-- Outcome of resolve_opposed_moves: the early-return failure dict or
the full round result dict. -/
inductive RoundOutcome where
  | failure (reason : String)
  | ok (result : RoundResult)
  deriving DecidableEq

/-- Result of a resolve_opposed_moves call: the combat system and the
two combatant objects as left after the call, plus the returned dict. -/
structure ResolveState where
  sys : CombatSystem
  actor : Combatant
  target : Combatant
  outcome : RoundOutcome

/-- Extract the result record of an ok outcome. -/
def RoundOutcome.result? : RoundOutcome → Option RoundResult
  | .failure _ => none
  | .ok r => some r

/-- CombatSystem._calculate_type_advantage: the exact if-chain of the
source. -/
def calculate_type_advantage (actor_type target_type : MoveType) : Int :=
  if actor_type = MoveType.force ∧ target_type = MoveType.trick then 1
  else if actor_type = MoveType.trick ∧ target_type = MoveType.focus then 1
  else if actor_type = MoveType.focus ∧ target_type = MoveType.force then 1
  else if target_type = MoveType.force ∧ actor_type = MoveType.trick then -1
  else if target_type = MoveType.trick ∧ actor_type = MoveType.focus then -1
  else if target_type = MoveType.focus ∧ actor_type = MoveType.force then -1
  else 0

/-- CombatSystem._calculate_move_roll: d6 plus the best effective domain
rating among the move domains, plus environment adjustments per listed
domain. -/
def calculate_move_roll (sys : CombatSystem) (c : Combatant) (m : CombatMove)
    (d6 : Int) : Int :=
  let best := m.domains.foldl (fun acc d => max acc (c.get_domain_rating d)) 0
  let roll := d6 + best
  m.domains.foldl (fun acc d =>
    let acc := if d = Domain.awareness ∧ "Shadowy" ∈ sys.environment_tags then acc + 1 else acc
    if d = Domain.body ∧ "Confined" ∈ sys.environment_tags then acc - 1 else acc) roll

/-- Optional result fields and hooks produced by the effect-application
half of resolve_opposed_moves. -/
structure ResultExtras where
  hooks : List String := []
  damage_dealt : Option Int := none
  current_health : Option Int := none
  wounded : Option Bool := none
  status_applied : Option String := none
  status_duration : Option Int := none
  deriving DecidableEq

/-- Weak-domain damage loop of the success branch: +5 damage and one
hook per actor-move domain the target is weak in. -/
def weak_domain_fold (weak : List Domain) (domains : List Domain) (damage0 : Int) :
    Int × List String :=
  domains.foldl (fun p d =>
    if d ∈ weak then (p.1 + 5, p.2 ++ ["Exploits " ++ d.val ++ " weakness"]) else p)
    (damage0, [])

/-- Success branch of resolve_opposed_moves, applied to the target after
costs were paid.  Damage is magnitude times 5 plus weakness bonuses;
desperate moves multiply by 1.5, and the float truncation int(damage)
is floor on the non-negative values that arise, written (3 * d) / 2.
Damage lands only for Force or Trick moves; a Focus move listing the
Mind domain applies Confused; and because the source line 308 tests the
truthy enum member MoveType.DEBUFF instead of comparing the move type,
the Stunned-or-Frightened status is applied on every successful round,
its result fields overwriting the Confused ones. -/
def success_effects (target1 : Combatant) (actor_move : CombatMove)
    (effect_magnitude : Int) (pick_stunned : Bool) : Combatant × ResultExtras :=
  let ws := weak_domain_fold target1.weak_domains actor_move.domains (effect_magnitude * 5)
  let damage := if actor_move.is_desperate then (3 * ws.1) / 2 else ws.1
  let step1 :=
    if actor_move.move_type = MoveType.force ∨ actor_move.move_type = MoveType.trick then
      let r := target1.apply_damage damage
      (r.1, some r.2)
    else (target1, none)
  let step2 :=
    if actor_move.move_type = MoveType.focus ∧ Domain.mind ∈ actor_move.domains then
      let r := step1.1.apply_status Status.confused
      (r.1, ["Creates mental confusion"])
    else (step1.1, [])
  let debuff_status := if pick_stunned then Status.stunned else Status.frightened
  let r := step2.1.apply_status debuff_status
  (r.1,
   { hooks := ws.2 ++ step2.2
     damage_dealt := step1.2.map (fun d => d.damage_dealt)
     current_health := step1.2.map (fun d => d.current_health)
     wounded := step1.2.map (fun d => d.wounded)
     status_applied := some r.2.status_applied
     status_duration := some r.2.duration })

/-- Failure branch hooks of resolve_opposed_moves. -/
def failure_hooks (target_move : CombatMove) (type_advantage : Int) : List String :=
  (if target_move.move_type = MoveType.focus then ["Perfectly reads the situation"] else []) ++
  (if type_advantage < 0 then ["Counter-move was perfectly chosen"] else [])

/-- CombatSystem.resolve_opposed_moves, step for step: affordability
checks with early failure returns, cost payment, type advantage, rolls,
momentum, desperate and calculated adjustments, strict comparison,
momentum update (the second update reads the map already holding the
first), effect application, hook collection, logging. -/
def resolve_opposed_moves (sys : CombatSystem) (actor : Combatant)
    (actor_move : CombatMove) (target : Combatant) (target_move : CombatMove)
    (draws : RandomDraws) : ResolveState :=
  if actor.can_use_move actor_move = false then
    ⟨sys, actor, target,
     .failure (actor.name ++ " lacks resources for " ++ actor_move.name)⟩
  else if target.can_use_move target_move = false then
    ⟨sys, actor, target,
     .failure (target.name ++ " lacks resources for " ++ target_move.name)⟩
  else
    let actor1 := actor.pay_move_costs actor_move
    let target1 := target.pay_move_costs target_move
    let type_advantage := calculate_type_advantage actor_move.move_type target_move.move_type
    let actor_roll := calculate_move_roll sys actor1 actor_move draws.actor_d6
    let target_roll := calculate_move_roll sys target1 target_move draws.target_d6
    let actor_roll := if type_advantage > 0 then actor_roll + 2 else actor_roll
    let target_roll := if type_advantage < 0 then target_roll + 2 else target_roll
    let actor_roll := actor_roll + sys.momentum actor.name
    let target_roll := target_roll + sys.momentum target.name
    let actor_roll := if actor_move.is_desperate then actor_roll + draws.actor_desperate_adj else actor_roll
    let actor_roll := if actor_move.is_calculated then max actor_roll (actor_roll - 1 + draws.actor_calculated_adj) else actor_roll
    let target_roll := if target_move.is_desperate then target_roll + draws.target_desperate_adj else target_roll
    let target_roll := if target_move.is_calculated then max target_roll (target_roll - 1 + draws.target_calculated_adj) else target_roll
    let actor_success := decide (actor_roll > target_roll)
    let mom2 :=
      if actor_success then
        update_momentum sys.momentum actor.name target.name
      else
        update_momentum sys.momentum target.name actor.name
    let effect_magnitude := |actor_roll - target_roll|
    let eff :=
      if actor_success then
        success_effects target1 actor_move effect_magnitude draws.debuff_pick_stunned
      else
        (target1, { hooks := failure_hooks target_move type_advantage })
    let hooks := eff.2.hooks
      ++ (match actor_move.narrative_hook with | some h => [h] | none => [])
      ++ (match target_move.narrative_hook with | some h => [h] | none => [])
    let result : RoundResult :=
      { actor := actor.name
        target := target.name
        actor_move := actor_move.name
        target_move := target_move.name
        actor_roll := actor_roll
        target_roll := target_roll
        actor_success := actor_success
        effect_magnitude := effect_magnitude
        type_advantage := type_advantage
        actor_momentum := mom2 actor.name
        target_momentum := mom2 target.name
        narrative_hooks := hooks
        damage_dealt := eff.2.damage_dealt
        current_health := eff.2.current_health
        wounded := eff.2.wounded
        status_applied := eff.2.status_applied
        status_duration := eff.2.status_duration }
    ⟨{ sys with
         combat_log := sys.combat_log ++ [result]
         momentum := mom2
         round_counter := sys.round_counter + 1 },
     actor1, eff.1, .ok result⟩

/-- Lookup of Domain[s.upper()] with the KeyError-skip of the source
loop: unknown strings yield none and are dropped. -/
def parse_domain (s : String) : Option Domain :=
  match s.toUpper with
  | "BODY" => some Domain.body
  | "MIND" => some Domain.mind
  | "CRAFT" => some Domain.craft
  | "AWARENESS" => some Domain.awareness
  | "SOCIAL" => some Domain.social
  | "AUTHORITY" => some Domain.authority
  | "SPIRIT" => some Domain.spirit
  | _ => none

/-- Reading the "domains" key of a logged round result dict.  The dicts
appended to combat_log by resolve_opposed_moves never carry such a key,
so the read is always absent; in Python the subscript raises KeyError. -/
def RoundResult.domains_key : RoundResult → Option (List String) :=
  fun _ => none

/-- CombatSystem.create_consequence.  The early guards return none; the
lookup of the matching logged dict uses find? as the source uses next;
the subsequent subscript of the missing "domains" key is the uncaught
KeyError, modelled as Except.error; the dead remainder builds the Major
or Minor consequence exactly as written.  The target parameter is
accepted and unused as in the source. -/
def create_consequence (sys : CombatSystem) (result : RoundResult)
    (_target : Combatant) : Except String (Option Consequence) :=
  if ¬ (result.actor_success = true) ∨ result.effect_magnitude < 3 then
    .ok none
  else
    match sys.combat_log.find? (fun m => decide (m.actor_move = result.actor_move)) with
    | none => .ok none
    | some logged =>
      match logged.domains_key with
      | none => .error ("KeyError: domains")
      | some domain_strs =>
        let affected_domains := domain_strs.filterMap parse_domain
        if result.effect_magnitude ≥ 5 then
          .ok (some
            { description := "Serious injury from " ++ result.actor_move
              affected_domains := affected_domains
              duration := 5
              intensity := 3
              narrative_hook := "The " ++ result.actor_move ++ " left a lasting mark"
              affected_stats := some [("stamina_regen", -1)] })
        else
          .ok (some
            { description := "Minor injury from " ++ result.actor_move
              affected_domains := affected_domains
              duration := 2
              intensity := 1
              narrative_hook := "Still feeling the effects of the " ++ result.actor_move
              affected_stats := none })

/-- EnhancedStatus._apply_stat_modifiers: iterate the stat_modifiers
dict in insertion order; stamina_regen is a no-op here, max_stamina is
adjusted with a floor of 1, everything else is ignored.  The current
stamina pool is not touched. -/
def EnhancedStatus._apply_stat_modifiers (es : EnhancedStatus) (c : Combatant) : Combatant :=
  es.stat_modifiers.foldl (fun c p =>
    if p.1 = "stamina_regen" then c
    else if p.1 = "max_stamina" then { c with max_stamina := max 1 (c.max_stamina + p.2) }
    else c) c

/-- EnhancedStatus.apply_to_combatant: add the coarse status tag, record
the enhanced record, apply the stat modifiers. -/
def EnhancedStatus.apply_to_combatant (es : EnhancedStatus) (c : Combatant) : Combatant :=
  let c := { c with statuses := add_status c.statuses es.base_status }
  let c := { c with enhanced_statuses := c.enhanced_statuses ++ [es] }
  es._apply_stat_modifiers c

/-- StatusFactory.create_wounded from status_system.py. -/
def create_wounded (tier : StatusTier := StatusTier.moderate) : EnhancedStatus :=
  match tier with
  | StatusTier.minor =>
    { name := "Lightly Wounded"
      base_status := Status.wounded
      tier := tier
      source := StatusSource.physical
      duration := 3
      description := "A minor wound that hampers physical activity"
      affected_domains := [Domain.body]
      stat_modifiers := [("stamina_regen", -1)]
      domain_modifiers := [(Domain.body, -1)]
      special_effects := [] }
  | StatusTier.moderate =>
    { name := "Wounded"
      base_status := Status.wounded
      tier := tier
      source := StatusSource.physical
      duration := 4
      description := "A significant wound that limits movement"
      affected_domains := [Domain.body, Domain.awareness]
      stat_modifiers := [("stamina_regen", -1), ("max_stamina", -10)]
      domain_modifiers := [(Domain.body, -1), (Domain.awareness, -1)]
      special_effects := ["May leave blood trail"] }
  | StatusTier.severe =>
    { name := "Severely Wounded"
      base_status := Status.wounded
      tier := tier
      source := StatusSource.physical
      duration := 6
      description := "A severe wound that greatly impairs function"
      affected_domains := [Domain.body, Domain.awareness, Domain.craft]
      stat_modifiers := [("stamina_regen", -2), ("max_stamina", -20)]
      domain_modifiers := [(Domain.body, -2), (Domain.awareness, -1), (Domain.craft, -1)]
      special_effects := ["Bleeding: Take 3 damage each round",
                          "Visible weakness: Enemies target you more"] }
  | StatusTier.critical =>
    { name := "Critically Wounded"
      base_status := Status.wounded
      tier := tier
      source := StatusSource.physical
      duration := 8
      description := "A life-threatening wound that severely impairs all function"
      affected_domains := [Domain.body, Domain.awareness, Domain.craft, Domain.mind]
      stat_modifiers := [("stamina_regen", -3), ("max_stamina", -30), ("max_focus", -20)]
      domain_modifiers := [(Domain.body, -3), (Domain.awareness, -2), (Domain.craft, -2),
                           (Domain.mind, -1)]
      special_effects := ["Heavy Bleeding: Take 5 damage each round",
                          "Shock: 20% chance to lose a turn",
                          "Requires immediate medical attention"] }

/-- Bonus-effect dict of a ComboMove.  apply_combo_effects reads the
damage_bonus and momentum_bonus values and check_for_combo tests key
presence; the float magnitude of critical_chance is stored but never
read by the modelled operations, so only its presence is kept. -/
structure BonusEffect where
  damage_bonus : Option Int := none
  momentum_bonus : Option Int := none
  has_critical_chance : Bool := false
  has_ignore_defense : Bool := false
  deriving DecidableEq

/-- ComboMove from combo_system.py. -/
structure ComboMove where
  name : String
  description : String
  required_sequence : List MoveType
  domains : List Domain
  bonus_effect : BonusEffect := {}
  deriving DecidableEq

/-- The Force-Trick-Force combo registered by
ComboSystem._initialize_combos. -/
def force_trick_force_combo : ComboMove :=
  { name := "Force-Trick-Force"
    description := "A powerful opening followed by a feint, then a devastating blow"
    required_sequence := [MoveType.force, MoveType.trick, MoveType.force]
    domains := [Domain.body, Domain.awareness]
    bonus_effect := { damage_bonus := some 10, momentum_bonus := some 1 } }

/-- ComboSystem state: the per-name move history dict, a total function
defaulting to the empty list as the source initialises absent keys. -/
structure ComboSystem where
  combatant_move_history : String → List MoveType := fun _ => []

/-- Append to a rolling history window and drop the oldest entry when
the length exceeds 5, as ComboSystem.record_move does. -/
def window_push (l : List MoveType) (mt : MoveType) : List MoveType :=
  let l := l ++ [mt]
  if l.length > 5 then l.drop 1 else l

/-- ComboSystem.record_move, keyed by combatant name. -/
def ComboSystem.record_move (cs : ComboSystem) (combatant : Combatant)
    (move_type : MoveType) : ComboSystem :=
  { cs with combatant_move_history := fun n =>
      if n = combatant.name then window_push (cs.combatant_move_history combatant.name) move_type
      else cs.combatant_move_history n }

/-- ComboSystem.apply_combo_effects: add the damage bonus to an existing
damage_dealt entry, add the momentum bonus to the actor_momentum entry
(always present, never clamped), and annotate the combo name when not
already annotated. -/
def apply_combo_effects (combo : ComboMove) (result : RoundResult) : RoundResult :=
  let r := result
  let r :=
    match combo.bonus_effect.damage_bonus with
    | some b =>
      match r.damage_dealt with
      | some d => { r with damage_dealt := some (d + b) }
      | none => r
    | none => r
  let r :=
    match combo.bonus_effect.momentum_bonus with
    | some b => { r with actor_momentum := r.actor_momentum + b }
    | none => r
  match r.combo_used with
  | none => { r with combo_used := some combo.name }
  | some _ => r

/-- CombatMemento from adaptive_enemy_ai.py.  The player_patterns dict
of dicts is a total counting function with default 0, which matches
its initialise-if-absent increments. -/
structure CombatMemento where
  player_moves_used : List MoveType := []
  successful_player_moves : List MoveType := []
  successful_enemy_moves : List MoveType := []
  player_patterns : String → String → Int := fun _ _ => 0

/-- CombatMemento._update_player_patterns: rebuild counts over every
2-move window of the whole history, keyed by the dash-joined member
names, counting the follow-up move name. -/
def CombatMemento._update_player_patterns (moves : List MoveType)
    (patterns : String → String → Int) : String → String → Int :=
  if moves.length < 3 then patterns
  else
    (List.range (moves.length - 2)).foldl (fun pat i =>
      let key := (moves.getD i MoveType.force).enum_name ++ "-"
                 ++ (moves.getD (i + 1) MoveType.force).enum_name
      let follow_up := (moves.getD (i + 2) MoveType.force).enum_name
      fun k f => if k = key ∧ f = follow_up then pat k f + 1 else pat k f) patterns

/-- CombatMemento.record_round: append the player move type, extend the
matching success list, refresh the pattern table. -/
def CombatMemento.record_round (m : CombatMemento) (player_move enemy_move : CombatMove)
    (player_success : Bool) : CombatMemento :=
  let m := { m with player_moves_used := m.player_moves_used ++ [player_move.move_type] }
  let m :=
    if player_success then
      { m with successful_player_moves := m.successful_player_moves ++ [player_move.move_type] }
    else
      { m with successful_enemy_moves := m.successful_enemy_moves ++ [enemy_move.move_type] }
  { m with player_patterns :=
      CombatMemento._update_player_patterns m.player_moves_used m.player_patterns }

/-- The loop in update_from_combat_result that compares each MoveType
value string against a field of the result dict. -/
def move_type_from_value (s : String) : Option MoveType :=
  if s = "Force" then some MoveType.force
  else if s = "Trick" then some MoveType.trick
  else if s = "Focus" then some MoveType.focus
  else if s = "Buff" then some MoveType.buff
  else if s = "Debuff" then some MoveType.debuff
  else if s = "Utility" then some MoveType.utility
  else none

/-- AdaptiveEnemyAI.update_from_combat_result restricted to its effect
on the memento: the actor_move and target_move entries of the result
dict (which hold move names) are matched against MoveType value strings;
when either match fails the method returns without recording.  The
subsequent _adapt_personality call mutates only the float-valued
personality traits and is outside this embedding. -/
def update_from_combat_result (memento : CombatMemento) (result : RoundResult) :
    CombatMemento :=
  let player_move_type := move_type_from_value result.actor_move
  let enemy_move_type := move_type_from_value result.target_move
  match player_move_type, enemy_move_type with
  | some pt, some et =>
    memento.record_round
      { name := "", move_type := pt, domains := [], description := "" }
      { name := "", move_type := et, domains := [], description := "" }
      result.actor_success
  | _, _ => memento

/-- The zero-cost fallback move fabricated by AdaptiveEnemyAI.choose_move
when nothing is affordable. -/
def desperate_action : CombatMove :=
  { name := "Desperate Action"
    move_type := MoveType.force
    domains := [Domain.body]
    description := "A last-resort action" }

/-- AdaptiveEnemyAI._choose_desperate_move.  The Python objects are
shared references into the usable-move list, so flagging the chosen
move mutates the list entry; the list here is that shared store, and the
function returns the post-mutation store together with the chosen move.
The random.choice index is passed explicitly; force-typed moves are
preferred.  The none branch is unreachable for a non-empty list. -/
def _choose_desperate_move (usable_moves : List CombatMove) (pick : Nat) :
    List CombatMove × CombatMove :=
  let force_idxs := (List.range usable_moves.length).filter (fun i =>
    match usable_moves.get? i with
    | some m => decide (m.move_type = MoveType.force)
    | none => false)
  let j :=
    if force_idxs.length > 0 then force_idxs.getD (pick % force_idxs.length) 0
    else pick % usable_moves.length
  match usable_moves.get? j with
  | some m =>
    let flagged := CombatMove.with_narrative_hook { m with is_desperate := true }
      ("Fights with desperate fury")
    (usable_moves.set j flagged, flagged)
  | none => (usable_moves, desperate_action)

/-- One round of a session: the two chosen moves, the random draws, and
which stored combatant acts (swap means the second one acts). -/
structure RoundSpec where
  actor_move : CombatMove
  target_move : CombatMove
  draws : RandomDraws
  swap : Bool := false

/-- A sequence of resolve_opposed_moves calls threading the combat
system and the two combatant objects. -/
def run_rounds (sys : CombatSystem) (a b : Combatant) :
    List RoundSpec → CombatSystem × Combatant × Combatant
  | [] => (sys, a, b)
  | r :: rest =>
    if r.swap then
      let st := resolve_opposed_moves sys b r.actor_move a r.target_move r.draws
      run_rounds st.sys st.target st.actor rest
    else
      let st := resolve_opposed_moves sys a r.actor_move b r.target_move r.draws
      run_rounds st.sys st.actor st.target rest

/-- The pool invariant of the spec: every current value within
[0, max]. -/
def pools_ok (c : Combatant) : Prop :=
  0 ≤ c.current_health ∧ c.current_health ≤ c.max_health ∧
  0 ≤ c.current_stamina ∧ c.current_stamina ≤ c.max_stamina ∧
  0 ≤ c.current_focus ∧ c.current_focus ≤ c.max_focus ∧
  0 ≤ c.current_spirit ∧ c.current_spirit ≤ c.max_spirit

instance (c : Combatant) : Decidable (pools_ok c) := by
  unfold pools_ok
  infer_instance

/-- Non-negative resource costs, as the data model requires of library
moves. -/
def costs_ok (m : CombatMove) : Prop :=
  0 ≤ m.stamina_cost ∧ 0 ≤ m.focus_cost ∧ 0 ≤ m.spirit_cost

instance (m : CombatMove) : Decidable (costs_ok m) := by
  unfold costs_ok
  infer_instance

/-- The hammer_blow template of create_move_library. -/
def hammer_blow : CombatMove :=
  { name := "Hammer Blow"
    move_type := MoveType.force
    domains := [Domain.body, Domain.craft]
    description := "A powerful overhead strike"
    stamina_cost := 2 }

/-- The inspiring_speech template of create_move_library. -/
def inspiring_speech : CombatMove :=
  { name := "Inspiring Speech"
    move_type := MoveType.buff
    domains := [Domain.social, Domain.authority]
    description := "Rally allies with inspiring words"
    focus_cost := 1
    spirit_cost := 1 }

/-- A player combatant with a strong Body rating, used as concrete
input. -/
def hero : Combatant :=
  { name := "Hero"
    combatant_type := CombatantType.player
    domain_ratings := [(Domain.body, 10)] }

/-- An enemy combatant with no ratings, used as concrete input. -/
def bandit : Combatant :=
  { name := "Bandit"
    combatant_type := CombatantType.enemy
    domain_ratings := [] }

/-- Fixed random draws: actor d6 is 6, target d6 is 1, stunned picked. -/
def draws0 : RandomDraws := { actor_d6 := 6, target_d6 := 1 }

/-- First concrete round: Hero swings Hammer Blow against Inspiring
Speech in a fresh combat system. -/
def round1 : ResolveState :=
  resolve_opposed_moves {} hero hammer_blow bandit inspiring_speech draws0

/-- Second concrete round, continuing from the first. -/
def round2 : ResolveState :=
  resolve_opposed_moves round1.sys round1.actor hammer_blow round1.target inspiring_speech draws0

/-- Third concrete round, continuing from the second. -/
def round3 : ResolveState :=
  resolve_opposed_moves round2.sys round2.actor hammer_blow round2.target inspiring_speech draws0

/-- Placeholder round result used as a getD default. -/
def empty_result : RoundResult :=
  { actor := ""
    target := ""
    actor_move := ""
    target_move := ""
    actor_roll := 0
    target_roll := 0
    actor_success := false
    effect_magnitude := 0
    type_advantage := 0
    actor_momentum := 0
    target_momentum := 0
    narrative_hooks := [] }

/-- The result record of the first concrete round. -/
def round1_result : RoundResult := round1.outcome.result?.getD empty_result

/-- The result record of the third concrete round. -/
def round3_result : RoundResult := round3.outcome.result?.getD empty_result

/-- C3: on a successful round won with the Force-type Hammer Blow (not a
Debuff move), the source still applies a status from the Stunned or
Frightened pair, because line 308 tests the truthy enum member
MoveType.DEBUFF instead of the move type; the claims restriction of
those statuses to Debuff moves fails on this input. -/
theorem debuff_status_applied_on_force_success :
    hammer_blow.move_type = MoveType.force ∧
    ¬ hammer_blow.move_type = MoveType.debuff ∧
    round1_result.actor_success = true ∧
    round1_result.status_applied = some ("Stunned") ∧
    Status.stunned ∈ round1.target.statuses := by
  decide

/-- C2: on a logged successful round of effect magnitude at least 3,
create_consequence reaches the subscript of the missing domains key of
the logged result dict and raises KeyError instead of returning a
structured Minor or Major consequence. -/
theorem create_consequence_raises_keyerror :
    round1_result.actor_success = true ∧
    3 ≤ round1_result.effect_magnitude ∧
    create_consequence round1.sys round1_result bandit = Except.error ("KeyError: domains") := by
  decide

/-- C6: after a real round whose result carries the move names Hammer
Blow and Inspiring Speech, update_from_combat_result records nothing:
it compares those names against MoveType value strings, both lookups
fail, and the memento is returned unchanged. -/
theorem update_from_combat_result_records_nothing :
    round1_result.actor_move = "Hammer Blow" ∧
    round1_result.target_move = "Inspiring Speech" ∧
    update_from_combat_result {} round1_result = ({} : CombatMemento) := by
  refine ⟨by decide, by decide, ?_⟩
  rfl

/-- C4 counterexample: applying the Moderate Wounded enhanced status to
a full combatant lowers max_stamina to 90 while current_stamina stays
100, so the current value exceeds the maximum. -/
theorem max_stamina_reduction_breaks_current_le_max :
    pools_ok hero ∧
    ((create_wounded StatusTier.moderate).apply_to_combatant hero).current_stamina = 100 ∧
    ((create_wounded StatusTier.moderate).apply_to_combatant hero).max_stamina = 90 ∧
    ¬ ((create_wounded StatusTier.moderate).apply_to_combatant hero).current_stamina ≤
        ((create_wounded StatusTier.moderate).apply_to_combatant hero).max_stamina := by
  decide

/-- C5 counterexample: three resolved rounds drive the actor momentum
record to the clamp value 3, and applying the registered
Force-Trick-Force combo (momentum bonus 1) yields a recorded momentum of
4, above the claimed 0 to 3 clamp. -/
theorem combo_momentum_exceeds_clamp :
    round3_result.actor_momentum = 3 ∧
    force_trick_force_combo.bonus_effect.momentum_bonus = some 1 ∧
    (apply_combo_effects force_trick_force_combo round3_result).actor_momentum = 4 ∧
    ¬ (apply_combo_effects force_trick_force_combo round3_result).actor_momentum ≤ 3 := by
  decide

/-- C7 counterexample: after _choose_desperate_move flags the single
library entry, a later read of that entry sees is_desperate true and the
attached hook, not the original template values. -/
theorem desperate_flag_mutates_template :
    hammer_blow.is_desperate = false ∧
    hammer_blow.narrative_hook = none ∧
    ((_choose_desperate_move [hammer_blow] 0).1.getD 0 desperate_action).is_desperate = true ∧
    ((_choose_desperate_move [hammer_blow] 0).1.getD 0 desperate_action).narrative_hook =
      some ("Fights with desperate fury") := by
  decide

/-- C8: the type advantage function gives the cyclic wins Force over
Trick, Trick over Focus and Focus over Force, is antisymmetric, is zero
on equal types, and is zero on every pairing that involves Buff, Debuff
or Utility. -/
theorem type_advantage_cyclic_antisymmetric :
    calculate_type_advantage MoveType.force MoveType.trick = 1 ∧
    calculate_type_advantage MoveType.trick MoveType.focus = 1 ∧
    calculate_type_advantage MoveType.focus MoveType.force = 1 ∧
    (∀ a b : MoveType, calculate_type_advantage a b = -(calculate_type_advantage b a)) ∧
    (∀ a : MoveType, calculate_type_advantage a a = 0) ∧
    (∀ a b : MoveType,
      (a = MoveType.buff ∨ a = MoveType.debuff ∨ a = MoveType.utility ∨
       b = MoveType.buff ∨ b = MoveType.debuff ∨ b = MoveType.utility) →
      calculate_type_advantage a b = 0) := by
  decide

/-- Witness for C8, discharging the implication of its last conjunct at
the Buff versus Force pairing. -/
theorem type_advantage_cyclic_antisymmetric_witness :
    calculate_type_advantage MoveType.buff MoveType.force = 0 :=
  type_advantage_cyclic_antisymmetric.2.2.2.2.2 MoveType.buff MoveType.force (Or.inl rfl)

/-- C1: when either combatant cannot afford the chosen move,
resolve_opposed_moves returns the failure dict whose reason names the
deficient combatant and move (the actor is checked first), and the
combat system — log, momentum map, environment tags, round counter —
and both combatant objects are returned exactly as passed in. -/
theorem resolve_insufficient_resources_no_mutation
    (sys : CombatSystem) (a : Combatant) (am : CombatMove)
    (t : Combatant) (tm : CombatMove) (draws : RandomDraws)
    (h : a.can_use_move am = false ∨ t.can_use_move tm = false) :
    (resolve_opposed_moves sys a am t tm draws).sys = sys ∧
    (resolve_opposed_moves sys a am t tm draws).actor = a ∧
    (resolve_opposed_moves sys a am t tm draws).target = t ∧
    (resolve_opposed_moves sys a am t tm draws).outcome =
      RoundOutcome.failure
        (if a.can_use_move am = false
         then a.name ++ " lacks resources for " ++ am.name
         else t.name ++ " lacks resources for " ++ tm.name) := by
  by_cases ha : a.can_use_move am = false
  · simp [resolve_opposed_moves, ha]
  · have ht : t.can_use_move tm = false := h.resolve_left ha
    simp [resolve_opposed_moves, ha, ht]

/-- Hero with nearly exhausted stamina, unable to pay for Hammer Blow. -/
def tired_hero : Combatant := { hero with current_stamina := 1 }

/-- Witness for C1 at a combatant who cannot pay the Hammer Blow
stamina cost. -/
theorem resolve_insufficient_resources_no_mutation_witness :
    tired_hero.can_use_move hammer_blow = false ∧
    (resolve_opposed_moves {} tired_hero hammer_blow bandit inspiring_speech draws0).outcome =
      RoundOutcome.failure ("Hero lacks resources for Hammer Blow") := by
  refine ⟨by decide, ?_⟩
  have h := resolve_insufficient_resources_no_mutation {} tired_hero hammer_blow bandit
    inspiring_speech draws0 (Or.inl (by decide))
  rw [h.2.2.2]
  decide

/-- C9: whenever resolve_opposed_moves returns a result dict, its
actor_success flag is set exactly when the recorded, fully adjusted
actor roll strictly exceeds the recorded target roll; equal rolls leave
the flag false, the round going to the defender. -/
theorem actor_success_iff_strictly_greater
    (sys : CombatSystem) (a : Combatant) (am : CombatMove)
    (t : Combatant) (tm : CombatMove) (draws : RandomDraws) (r : RoundResult)
    (h : (resolve_opposed_moves sys a am t tm draws).outcome = RoundOutcome.ok r) :
    (r.actor_success = true ↔ r.target_roll < r.actor_roll) := by
  by_cases ha : a.can_use_move am = false
  · simp [resolve_opposed_moves, ha] at h
  · by_cases ht : t.can_use_move tm = false
    · simp [resolve_opposed_moves, ha, ht] at h
    · unfold resolve_opposed_moves at h
      rw [if_neg ha, if_neg ht] at h
      dsimp only at h
      rw [RoundOutcome.ok.injEq] at h
      subst h
      simp

/-- Witness for C9 at the first concrete round. -/
theorem actor_success_iff_strictly_greater_witness :
    (resolve_opposed_moves {} hero hammer_blow bandit inspiring_speech draws0).outcome =
      RoundOutcome.ok round1_result ∧
    (round1_result.actor_success = true ↔ round1_result.target_roll < round1_result.actor_roll) := by
  have hok : (resolve_opposed_moves {} hero hammer_blow bandit inspiring_speech draws0).outcome =
      RoundOutcome.ok round1_result := rfl
  exact ⟨hok, actor_success_iff_strictly_greater {} hero hammer_blow bandit inspiring_speech
    draws0 round1_result hok⟩

/-- C10: with identically named actor and target, a resolved round reads
and writes one shared momentum entry — the winner increment and the
loser decrement land on the same entry, leaving
max 0 (min 3 (old + 1) - 1) — and the result dict reports the same
number for both sides; likewise the combo system keeps one shared
rolling history window, so recording a move for each of the two
combatants appends both moves to the single window under that name. -/
theorem same_name_shares_momentum_and_history
    (sys : CombatSystem) (a : Combatant) (am : CombatMove)
    (t : Combatant) (tm : CombatMove) (draws : RandomDraws)
    (cs : ComboSystem) (mt1 mt2 : MoveType)
    (hname : a.name = t.name)
    (hca : a.can_use_move am = true) (hct : t.can_use_move tm = true) :
    (resolve_opposed_moves sys a am t tm draws).sys.momentum a.name =
      max 0 (min 3 (sys.momentum a.name + 1) - 1) ∧
    (∃ r, (resolve_opposed_moves sys a am t tm draws).outcome = RoundOutcome.ok r ∧
      r.actor_momentum = r.target_momentum) ∧
    ((cs.record_move a mt1).record_move t mt2).combatant_move_history a.name =
      window_push (window_push (cs.combatant_move_history a.name) mt1) mt2 := by
  have ha : ¬ a.can_use_move am = false := by simp [hca]
  have ht : ¬ t.can_use_move tm = false := by simp [hct]
  refine ⟨?_, ?_, ?_⟩
  · unfold resolve_opposed_moves
    rw [if_neg ha, if_neg ht]
    dsimp only
    split <;> simp [update_momentum, update_map, hname]
  · rcases hr : (resolve_opposed_moves sys a am t tm draws).outcome with reason | r
    · exfalso
      unfold resolve_opposed_moves at hr
      rw [if_neg ha, if_neg ht] at hr
      exact RoundOutcome.noConfusion hr
    · refine ⟨r, rfl, ?_⟩
      unfold resolve_opposed_moves at hr
      rw [if_neg ha, if_neg ht] at hr
      simp only [RoundOutcome.ok.injEq] at hr
      rw [← hr]
      dsimp only
      rw [hname]
  · simp [ComboSystem.record_move, hname]

/-- A second combatant that shares the name Hero. -/
def hero_twin : Combatant := { bandit with name := "Hero" }

/-- Witness for C10 at two same-named combatants who can both pay their
moves. -/
theorem same_name_shares_momentum_and_history_witness :
    hero.name = hero_twin.name ∧
    hero.can_use_move hammer_blow = true ∧
    hero_twin.can_use_move inspiring_speech = true ∧
    ((resolve_opposed_moves {} hero hammer_blow hero_twin inspiring_speech draws0).sys.momentum
        hero.name = max 0 (min 3 (({} : CombatSystem).momentum hero.name + 1) - 1) ∧
     (∃ r, (resolve_opposed_moves {} hero hammer_blow hero_twin inspiring_speech draws0).outcome =
        RoundOutcome.ok r ∧ r.actor_momentum = r.target_momentum) ∧
     ((({} : ComboSystem).record_move hero MoveType.force).record_move hero_twin
        MoveType.trick).combatant_move_history hero.name =
       window_push (window_push (({} : ComboSystem).combatant_move_history hero.name)
         MoveType.force) MoveType.trick) :=
  ⟨by decide, by decide, by decide,
   same_name_shares_momentum_and_history {} hero hammer_blow hero_twin inspiring_speech draws0
     {} MoveType.force MoveType.trick (by decide) (by decide) (by decide)⟩

/-- A pointwise map update keeps every entry within [0, 3] when the old
map and the new value are within [0, 3]. -/
theorem update_map_bounds (M : String → Int) (k : String) (v : Int)
    (hM : ∀ n, 0 ≤ M n ∧ M n ≤ 3) (hv : 0 ≤ v ∧ v ≤ 3) :
    ∀ n, 0 ≤ update_map M k v n ∧ update_map M k v n ≤ 3 := by
  intro n
  unfold update_map
  split
  · exact hv
  · exact hM n

/-- The winner and loser momentum writes keep every entry within
[0, 3]. -/
theorem update_momentum_bounds (M : String → Int) (w l : String)
    (hM : ∀ n, 0 ≤ M n ∧ M n ≤ 3) :
    ∀ n, 0 ≤ update_momentum M w l n ∧ update_momentum M w l n ≤ 3 := by
  have h1 : ∀ n, 0 ≤ update_map M w (min 3 (M w + 1)) n ∧
      update_map M w (min 3 (M w + 1)) n ≤ 3 := by
    refine update_map_bounds M w (min 3 (M w + 1)) hM ⟨?_, ?_⟩
    · have := (hM w).1
      omega
    · omega
  intro n
  unfold update_momentum
  refine update_map_bounds _ l _ h1 ⟨?_, ?_⟩ n
  · omega
  · have := (h1 l).2
    omega

/-- Case split on a Bool-conditioned if under an arbitrary predicate. -/
theorem bool_ite_cases (α : Type) (P : α → Prop) (s : Bool) (x y : α)
    (hx : P x) (hy : P y) : P (if s = true then x else y) := by
  cases s
  · simpa using hy
  · simpa using hx

/-- One resolved round keeps every momentum entry within [0, 3]. -/
theorem resolve_momentum_bounds (sys : CombatSystem) (a : Combatant) (am : CombatMove)
    (t : Combatant) (tm : CombatMove) (draws : RandomDraws)
    (h : ∀ n, 0 ≤ sys.momentum n ∧ sys.momentum n ≤ 3) :
    ∀ n, 0 ≤ (resolve_opposed_moves sys a am t tm draws).sys.momentum n ∧
      (resolve_opposed_moves sys a am t tm draws).sys.momentum n ≤ 3 := by
  by_cases ha : a.can_use_move am = false
  · simp only [resolve_opposed_moves, if_pos ha]
    exact h
  · by_cases ht : t.can_use_move tm = false
    · simp only [resolve_opposed_moves, if_neg ha, if_pos ht]
      exact h
    · intro n
      unfold resolve_opposed_moves
      rw [if_neg ha, if_neg ht]
      dsimp only
      exact bool_ite_cases (String → Int) (fun f => 0 ≤ f n ∧ f n ≤ 3) _ _ _
        (update_momentum_bounds _ _ _ h n) (update_momentum_bounds _ _ _ h n)

/-- C5 amended: the momentum map of the resolver stays within [0, 3]
over any sequence of rounds (the winner and loser writes are clamped),
while apply_combo_effects adds a momentum bonus to the actor_momentum
entry of the result record without any clamp. -/
theorem momentum_clamped_and_combo_unclamped :
    (∀ (rounds : List RoundSpec) (sys : CombatSystem) (a b : Combatant),
      (∀ n, 0 ≤ sys.momentum n ∧ sys.momentum n ≤ 3) →
      ∀ n, 0 ≤ (run_rounds sys a b rounds).1.momentum n ∧
        (run_rounds sys a b rounds).1.momentum n ≤ 3) ∧
    (∀ (combo : ComboMove) (r : RoundResult) (b : Int),
      combo.bonus_effect.momentum_bonus = some b →
      (apply_combo_effects combo r).actor_momentum = r.actor_momentum + b) := by
  constructor
  · intro rounds
    induction rounds with
    | nil =>
      intro sys a b h n
      exact h n
    | cons r rest ih =>
      intro sys a b h n
      unfold run_rounds
      split
      · exact ih _ _ _ (resolve_momentum_bounds _ _ _ _ _ _ h) n
      · exact ih _ _ _ (resolve_momentum_bounds _ _ _ _ _ _ h) n
  · intro combo r b hb
    rcases hdb : combo.bonus_effect.damage_bonus with _ | db <;>
      rcases hdd : r.damage_dealt with _ | dd <;>
        rcases hcu : r.combo_used with _ | cu <;>
          simp [apply_combo_effects, hb, hdb, hdd, hcu]

/-- A round sequence with non-negative move costs: one Hammer Blow
against one Inspiring Speech. -/
def demo_rounds : List RoundSpec :=
  [{ actor_move := hammer_blow, target_move := inspiring_speech, draws := draws0 }]

/-- Witness for C5: the momentum map entry of Hero after the demo round
is within [0, 3], and the combo bonus lands unclamped on a record. -/
theorem momentum_clamped_and_combo_unclamped_witness :
    (0 ≤ (run_rounds {} hero bandit demo_rounds).1.momentum ("Hero") ∧
     (run_rounds {} hero bandit demo_rounds).1.momentum ("Hero") ≤ 3) ∧
    (apply_combo_effects force_trick_force_combo empty_result).actor_momentum =
      empty_result.actor_momentum + 1 :=
  ⟨momentum_clamped_and_combo_unclamped.1 demo_rounds {} hero bandit
      (fun _ => ⟨le_refl 0, show (0 : Int) ≤ 3 by norm_num⟩) ("Hero"),
   momentum_clamped_and_combo_unclamped.2 force_trick_force_combo empty_result 1 rfl⟩

/-- Unpack a true can_use_move check into the three cost bounds. -/
theorem can_use_move_true (c : Combatant) (m : CombatMove)
    (h : c.can_use_move m = true) :
    m.stamina_cost ≤ c.current_stamina ∧ m.focus_cost ≤ c.current_focus ∧
    m.spirit_cost ≤ c.current_spirit := by
  unfold Combatant.can_use_move at h
  simp only [Bool.and_eq_true, decide_eq_true_eq] at h
  exact ⟨h.1.1, h.1.2, h.2⟩

/-- Paying affordable non-negative move costs keeps all pools within
[0, max]. -/
theorem pay_pools (c : Combatant) (m : CombatMove)
    (hcan : c.can_use_move m = true) (hc : costs_ok m) (hp : pools_ok c) :
    pools_ok (c.pay_move_costs m) := by
  obtain ⟨h1, h2, h3⟩ := can_use_move_true c m hcan
  obtain ⟨c1, c2, c3⟩ := hc
  obtain ⟨p1, p2, p3, p4, p5, p6, p7, p8⟩ := hp
  unfold Combatant.pay_move_costs pools_ok
  dsimp only
  refine ⟨?_, ?_, ?_, ?_, ?_, ?_, ?_, ?_⟩ <;> omega

/-- Applying non-negative damage keeps all pools within [0, max]: the
health write is clamped below at 0 and only decreases. -/
theorem damage_pools (c : Combatant) (amount : Int)
    (h0 : 0 ≤ amount) (hp : pools_ok c) : pools_ok (c.apply_damage amount).1 := by
  obtain ⟨p1, p2, p3, p4, p5, p6, p7, p8⟩ := hp
  unfold Combatant.apply_damage
  dsimp only
  split <;>
    · unfold pools_ok
      dsimp only
      refine ⟨?_, ?_, ?_, ?_, ?_, ?_, ?_, ?_⟩ <;> omega

/-- Applying a status touches no pool. -/
theorem status_pools (c : Combatant) (s : Status) (d : Int)
    (hp : pools_ok c) : pools_ok (c.apply_status s d).1 := by
  unfold Combatant.apply_status pools_ok at *
  exact hp

/-- The weak-domain bonus loop only raises the damage value. -/
theorem weak_fold_ge (w ds : List Domain) (d0 : Int) :
    d0 ≤ (weak_domain_fold w ds d0).1 := by
  unfold weak_domain_fold
  suffices h : ∀ p : Int × List String,
      p.1 ≤ (List.foldl (fun p d =>
        if d ∈ w then (p.1 + 5, p.2 ++ ["Exploits " ++ d.val ++ " weakness"]) else p) p ds).1 by
    exact h (d0, [])
  induction ds with
  | nil =>
    intro p
    exact le_refl p.1
  | cons d rest ih =>
    intro p
    have hstep : p.1 ≤
        (if d ∈ w then (p.1 + 5, p.2 ++ ["Exploits " ++ d.val ++ " weakness"]) else p).1 := by
      split
      · dsimp only
        omega
      · exact le_refl p.1
    exact le_trans hstep (ih _)

/-- The success branch of a resolved round keeps the target pools within
[0, max] for a non-negative effect magnitude. -/
theorem success_pools (t1 : Combatant) (am : CombatMove) (mag : Int) (pick : Bool)
    (hm : 0 ≤ mag) (hp : pools_ok t1) : pools_ok (success_effects t1 am mag pick).1 := by
  have hws := weak_fold_ge t1.weak_domains am.domains (mag * 5)
  have hdmg : 0 ≤ if am.is_desperate = true
      then 3 * (weak_domain_fold t1.weak_domains am.domains (mag * 5)).1 / 2
      else (weak_domain_fold t1.weak_domains am.domains (mag * 5)).1 := by
    split <;> omega
  unfold success_effects
  dsimp only
  apply status_pools
  by_cases hfm : am.move_type = MoveType.focus ∧ Domain.mind ∈ am.domains
  · rw [if_pos hfm]
    dsimp only
    apply status_pools
    by_cases hft : am.move_type = MoveType.force ∨ am.move_type = MoveType.trick
    · rw [if_pos hft]
      exact damage_pools _ _ hdmg hp
    · rw [if_neg hft]
      exact hp
  · rw [if_neg hfm]
    dsimp only
    by_cases hft : am.move_type = MoveType.force ∨ am.move_type = MoveType.trick
    · rw [if_pos hft]
      exact damage_pools _ _ hdmg hp
    · rw [if_neg hft]
      exact hp

/-- One resolve_opposed_moves call keeps both combatants' pools within
[0, max] when the two moves carry non-negative costs. -/
theorem resolve_preserves_pools (sys : CombatSystem) (a : Combatant) (am : CombatMove)
    (t : Combatant) (tm : CombatMove) (draws : RandomDraws)
    (hca : costs_ok am) (hct : costs_ok tm)
    (hpa : pools_ok a) (hpt : pools_ok t) :
    pools_ok (resolve_opposed_moves sys a am t tm draws).actor ∧
    pools_ok (resolve_opposed_moves sys a am t tm draws).target := by
  by_cases h1 : a.can_use_move am = false
  · simp only [resolve_opposed_moves, if_pos h1]
    exact ⟨hpa, hpt⟩
  · by_cases h2 : t.can_use_move tm = false
    · simp only [resolve_opposed_moves, if_neg h1, if_pos h2]
      exact ⟨hpa, hpt⟩
    · have h1' : a.can_use_move am = true := by
        cases hb : a.can_use_move am
        · exact absurd hb h1
        · rfl
      have h2' : t.can_use_move tm = true := by
        cases hb : t.can_use_move tm
        · exact absurd hb h2
        · rfl
      unfold resolve_opposed_moves
      rw [if_neg h1, if_neg h2]
      dsimp only
      constructor
      · exact pay_pools a am h1' hca hpa
      · exact bool_ite_cases (Combatant × ResultExtras) (fun p => pools_ok p.1) _ _ _
          (success_pools _ _ _ _ (abs_nonneg _) (pay_pools t tm h2' hct hpt))
          (pay_pools t tm h2' hct hpt)

/-- C4 amended: over any sequence of resolved rounds whose moves carry
non-negative costs, both combatants' health, stamina, focus and spirit
pools stay within [0, max].  The status-application half of the original
claim fails: see the max-stamina counterexample. -/
theorem pools_bounded_after_rounds (rounds : List RoundSpec) (sys : CombatSystem)
    (a b : Combatant)
    (hmoves : ∀ r ∈ rounds, costs_ok r.actor_move ∧ costs_ok r.target_move)
    (ha : pools_ok a) (hb : pools_ok b) :
    pools_ok (run_rounds sys a b rounds).2.1 ∧ pools_ok (run_rounds sys a b rounds).2.2 := by
  induction rounds generalizing sys a b with
  | nil => exact ⟨ha, hb⟩
  | cons r rest ih =>
    have hr := hmoves r (List.mem_cons_self r rest)
    have hrest : ∀ x ∈ rest, costs_ok x.actor_move ∧ costs_ok x.target_move :=
      fun x hx => hmoves x (List.mem_cons_of_mem r hx)
    unfold run_rounds
    split
    · have hstep := resolve_preserves_pools sys b r.actor_move a r.target_move r.draws
        hr.1 hr.2 hb ha
      exact ih _ _ _ hrest hstep.2 hstep.1
    · have hstep := resolve_preserves_pools sys a r.actor_move b r.target_move r.draws
        hr.1 hr.2 ha hb
      exact ih _ _ _ hrest hstep.1 hstep.2

/-- Witness for C4 at the demo round between Hero and Bandit. -/
theorem pools_bounded_after_rounds_witness :
    pools_ok hero ∧ pools_ok bandit ∧
    pools_ok (run_rounds {} hero bandit demo_rounds).2.1 ∧
    pools_ok (run_rounds {} hero bandit demo_rounds).2.2 :=
  ⟨by decide, by decide,
   (pools_bounded_after_rounds demo_rounds {} hero bandit (by decide) (by decide) (by decide)).1,
   (pools_bounded_after_rounds demo_rounds {} hero bandit (by decide) (by decide) (by decide)).2⟩

/-- A getD read at a valid index is a member of the list. -/
theorem list_getD_mem {α : Type} (l : List α) (j : Nat) (d : α) (h : j < l.length) :
    l.getD j d ∈ l := by
  rw [List.getD_eq_get l d h]
  exact List.get_mem l j h

/-- C7 amended: _choose_desperate_move on a non-empty usable list picks
an index within the list, returns that template with is_desperate set
and the fixed hook attached, and leaves the shared library with the
chosen slot replaced by the flagged move — later uses of that slot see
the flags, not the original template values. -/
theorem choose_desperate_flags_library_entry (moves : List CombatMove) (pick : Nat)
    (h : moves ≠ []) :
    ∃ j, j < moves.length ∧
      (_choose_desperate_move moves pick).2 =
        CombatMove.with_narrative_hook
          { moves.getD j desperate_action with is_desperate := true }
          ("Fights with desperate fury") ∧
      (_choose_desperate_move moves pick).1 =
        moves.set j ((_choose_desperate_move moves pick).2) := by
  have hlen : 0 < moves.length := List.length_pos.mpr h
  unfold _choose_desperate_move
  dsimp only
  set fi := (List.range moves.length).filter (fun i =>
    match moves.get? i with
    | some m => decide (m.move_type = MoveType.force)
    | none => false) with hfi
  set j : Nat := if fi.length > 0 then fi.getD (pick % fi.length) 0
    else pick % moves.length with hj
  have hjlt : j < moves.length := by
    rw [hj]
    split
    · have hmem : fi.getD (pick % fi.length) 0 ∈ fi :=
        list_getD_mem fi (pick % fi.length) 0 (Nat.mod_lt _ (by assumption))
      rw [hfi] at hmem
      exact List.mem_range.mp (List.mem_filter.mp hmem).1
    · exact Nat.mod_lt _ hlen
  have hget : moves.get? j = some (moves.get ⟨j, hjlt⟩) := List.get?_eq_get hjlt
  have hgetD : moves.getD j desperate_action = moves.get ⟨j, hjlt⟩ :=
    List.getD_eq_get moves desperate_action hjlt
  refine ⟨j, hjlt, ?_, ?_⟩
  · rw [hget, hgetD]
  · rw [hget]

/-- Witness for C7 on a one-entry library. -/
theorem choose_desperate_flags_library_entry_witness :
    ([hammer_blow] ≠ []) ∧
    (∃ j, j < [hammer_blow].length ∧
      (_choose_desperate_move [hammer_blow] 0).2 =
        CombatMove.with_narrative_hook
          { [hammer_blow].getD j desperate_action with is_desperate := true }
          ("Fights with desperate fury") ∧
      (_choose_desperate_move [hammer_blow] 0).1 =
        [hammer_blow].set j ((_choose_desperate_move [hammer_blow] 0).2)) :=
  ⟨by decide, choose_desperate_flags_library_entry [hammer_blow] 0 (by decide)⟩

end CombatCore
